import Mathlib

/-!
Shallow embedding of the execution core of the goose agent:
the response-generation pipeline (crates/goose/src/agents/reply_parts.rs)
and the concurrent task execution tracker
(crates/goose/src/agents/subagent_execution_tool/task_execution_tracker.rs).

Machine integers (Rust i32 token counts) are modelled as Int; the token
quantities involved in the verified properties are far from the i32 range
so two's-complement wrap-around plays no role.  Rust Instant values are
modelled as Nat milliseconds; tokio duration_since saturates at zero, which
matches Nat truncated subtraction.  Fallible Rust functions returning
Result are modelled with Except.  Components of the repository whose
sources are not part of this corpus (task_types.rs, utils.rs,
notification_events.rs, the toolshim module, providers/base.rs, session
storage) are modelled from the specification; each such definition carries
a doc comment beginning with Modelled from the spec.
-/

namespace Goose

/-- Model of serde_json::Value.  Numbers are modelled as Int (the values
appearing in the verified properties are integral); this loses only the
float/precision distinctions, which no claim depends on. -/
inductive Json where
  | null
  | bool (b : Bool)
  | num (n : Int)
  | str (s : String)
  | arr (elems : List Json)
  | obj (fields : List (String × Json))

mutual

/-- Model of serde_json::Value::to_string (compact JSON rendering), the
generic textual representation used for non-string parameter values.
String escaping is modelled for quote and backslash only; no claim
depends on the escaping of other characters. -/
def Json.render : Json → String
  | .null => "null"
  | .bool true => "true"
  | .bool false => "false"
  | .num n => toString n
  | .str s => "\"" ++ s ++ "\""
  | .arr elems => "[" ++ Json.renderElems elems ++ "]"
  | .obj fields => "\x7b" ++ Json.renderFields fields ++ "\x7d"

/-- Comma-separated rendering of JSON array elements. -/
def Json.renderElems : List Json → String
  | [] => ""
  | [v] => Json.render v
  | v :: rest => Json.render v ++ "," ++ Json.renderElems rest

/-- Comma-separated rendering of JSON object fields. -/
def Json.renderFields : List (String × Json) → String
  | [] => ""
  | [(k, v)] => "\"" ++ k ++ "\":" ++ Json.render v
  | (k, v) :: rest => "\"" ++ k ++ "\":" ++ Json.render v ++ "," ++ Json.renderFields rest

end

/-- Modelled from the spec: the token-count triple carried by a provider
usage report (providers/base.rs is not part of the corpus).  Each count is
optional, mirroring Option of i32 in the Rust struct. -/
structure Usage where
  input_tokens : Option Int
  output_tokens : Option Int
  total_tokens : Option Int
deriving DecidableEq

/-- Modelled from the spec: ProviderUsage pairs a usage report with the
model name it was produced by. -/
structure ProviderUsage where
  model : String
  usage : Usage
deriving DecidableEq

/-- Modelled from the spec: the persisted session metadata fields read,
overwritten and accumulated by update_session_metrics (session storage is
not part of the corpus; the field set is taken from the fields the
function touches). -/
structure SessionMetadata where
  schedule_id : Option String
  total_tokens : Option Int
  input_tokens : Option Int
  output_tokens : Option Int
  message_count : Nat
  accumulated_total_tokens : Option Int
  accumulated_input_tokens : Option Int
  accumulated_output_tokens : Option Int
deriving DecidableEq

/-- The accumulate closure of update_session_metrics
(reply_parts.rs lines 328-333): both counts present are summed, otherwise
whichever is present is kept. -/
def accumulate (a b : Option Int) : Option Int :=
  match a, b with
  | some x, some y => some (x + y)
  | some x, none => some x
  | none, some y => some y
  | none, none => none

/-- The pure core of update_session_metrics (reply_parts.rs lines 307-346):
the transformation applied to the session metadata between read_metadata
and update_metadata.  The storage round-trip itself (path lookup, file
read and write) is outside the embedded state. -/
def update_session_metrics (schedule_id : Option String) (usage : ProviderUsage)
    (messages_length : Nat) (metadata : SessionMetadata) : SessionMetadata :=
  { metadata with
    schedule_id := schedule_id
    total_tokens := usage.usage.total_tokens
    input_tokens := usage.usage.input_tokens
    output_tokens := usage.usage.output_tokens
    message_count := messages_length + 1
    accumulated_total_tokens :=
      accumulate metadata.accumulated_total_tokens usage.usage.total_tokens
    accumulated_input_tokens :=
      accumulate metadata.accumulated_input_tokens usage.usage.input_tokens
    accumulated_output_tokens :=
      accumulate metadata.accumulated_output_tokens usage.usage.output_tokens }

/-- Modelled from the spec: the task lifecycle states
(task_types.rs is not part of the corpus).  Enumeration
Pending / Running / Completed / Failed. -/
inductive TaskStatus where
  | pending
  | running
  | completed
  | failed
deriving DecidableEq

/-- Modelled from the spec: a Task is an external-facing description of one
unit of concurrent work: identifier, task-type label, an optional bag of
named parameters used only for display (exposed by get_command_parameters),
and the task-specific naming data that get_task_name falls back through,
modelled as an optional display name. -/
structure Task where
  id : String
  task_type : String
  name : Option String
  command_parameters : Option (List (String × Json))

/-- Modelled from the spec: accessor for the display-only command
parameter bag of a task. -/
def Task.get_command_parameters (t : Task) : Option (List (String × Json)) :=
  t.command_parameters

/-- Modelled from the spec: a TaskResult carries the terminal status,
an optional error payload and an optional structured result payload. -/
structure TaskResult where
  status : TaskStatus
  error : Option String
  data : Option Json

/-- Modelled from the spec: TaskInfo owns one Task plus mutable execution
state: current status, optional start instant, optional end instant,
optional result, and the accumulating buffer of raw output lines. -/
structure TaskInfo where
  task : Task
  status : TaskStatus
  start_time : Option Nat
  end_time : Option Nat
  result : Option TaskResult
  current_output : String

/-- Modelled from the spec: the error accessor of TaskInfo, reading the
error payload out of the stored result, if any. -/
def TaskInfo.error (ti : TaskInfo) : Option String :=
  ti.result.bind (fun r => r.error)

/-- Modelled from the spec: the result-data accessor of TaskInfo, reading
the structured payload out of the stored result, if any. -/
def TaskInfo.data (ti : TaskInfo) : Option Json :=
  ti.result.bind (fun r => r.data)

/-- Modelled from the spec: get_task_name (utils.rs is not part of the
corpus): the display name falls back through task-specific naming,
modelled as the optional display name with the task id as last resort. -/
def get_task_name (ti : TaskInfo) : String :=
  (ti.task.name).getD ti.task.id

/-- The two output strategies of the tracker
(task_execution_tracker.rs lines 21-25). -/
inductive DisplayMode where
  | multipleTasksOutput
  | singleTaskOutput
deriving DecidableEq

/-- Modelled from the spec: aggregate stats of a tasks-update event
(notification_events.rs is not part of the corpus). -/
structure TaskExecutionStats where
  total : Nat
  pending : Nat
  running : Nat
  completed : Nat
  failed : Nat

/-- Modelled from the spec: aggregate stats of a tasks-complete event. -/
structure TaskCompletionStats where
  total : Nat
  completed : Nat
  failed : Nat

/-- Modelled from the spec: one failed-task summary of a tasks-complete
event: id, display name, optional error. -/
structure FailedTaskInfo where
  id : String
  name : String
  error : Option String

/-- Modelled from the spec: the per-task snapshot carried by a
tasks-update event.  Durations are in milliseconds (the source converts to
f64 seconds for display; the claims do not depend on the unit). -/
structure EventTaskInfo where
  id : String
  status : TaskStatus
  duration_ms : Option Nat
  current_output : String
  task_type : String
  task_name : String
  task_metadata : String
  error : Option String
  result_data : Option Json

/-- Modelled from the spec: the tagged notification event variants emitted
by the tracker: line-output, tasks-update, tasks-complete. -/
inductive TaskExecutionNotificationEvent where
  | lineOutput (taskId : String) (line : String)
  | tasksUpdate (stats : TaskExecutionStats) (tasks : List EventTaskInfo)
  | tasksComplete (stats : TaskCompletionStats) (failedTasks : List FailedTaskInfo)

/-- Modelled from the spec: count_by_status (utils.rs is not part of the
corpus): the (total, pending, running, completed, failed) counts of the
live task map. -/
def count_by_status (tasks : List (String × TaskInfo)) : Nat × Nat × Nat × Nat × Nat :=
  (tasks.length,
    (tasks.filter (fun p => p.2.status == TaskStatus.pending)).length,
    (tasks.filter (fun p => p.2.status == TaskStatus.running)).length,
    (tasks.filter (fun p => p.2.status == TaskStatus.completed)).length,
    (tasks.filter (fun p => p.2.status == TaskStatus.failed)).length)

/-- THROTTLE_INTERVAL_MS (task_execution_tracker.rs line 27). -/
def THROTTLE_INTERVAL_MS : Nat := 250

/-- The mutable state of a TaskExecutionTracker: the task-id to TaskInfo
map (the HashMap is modelled as an association list keyed by unique ids)
and the shared last-refresh instant.  The display mode and the
cancellation token are passed to each operation: the mode is fixed at
construction, and cancellation is observed at call time. -/
structure TrackerState where
  tasks : List (String × TaskInfo)
  last_refresh : Nat

/-- TaskExecutionTracker::new (task_execution_tracker.rs lines 61-92):
every task enters the map with status Pending, no times, no result and an
empty output buffer; the last-refresh instant starts at construction
time. -/
def new_tracker (tasks : List Task) (now : Nat) : TrackerState :=
  { tasks := tasks.map (fun task =>
      (task.id,
        { task := task
          status := TaskStatus.pending
          start_time := none
          end_time := none
          result := none
          current_output := "" }))
    last_refresh := now }

/-- HashMap::get on the task map. -/
def get_task (tasks : List (String × TaskInfo)) (task_id : String) : Option TaskInfo :=
  (tasks.find? (fun p => p.1 == task_id)).map (fun p => p.2)

/-- HashMap::get_mut followed by a mutation: update the entry with the
given key in place, leaving the map unchanged when the key is absent. -/
def update_task : List (String × TaskInfo) → String → (TaskInfo → TaskInfo) →
    List (String × TaskInfo)
  | [], _, _ => []
  | p :: rest, task_id, f =>
    if p.1 == task_id then (p.1, f p.2) :: rest
    else p :: update_task rest task_id f

/-- format_task_metadata (task_execution_tracker.rs lines 30-50): the
comma-joined key=value list of the task command parameters, string values
used verbatim, other values rendered with Value::to_string. -/
def format_task_metadata (task_info : TaskInfo) : String :=
  match task_info.task.get_command_parameters with
  | some params =>
    if params.isEmpty then ""
    else
      String.intercalate ","
        (params.map (fun kv =>
          let value_str :=
            match kv.2 with
            | Json.str s => s
            | v => v.render
          kv.1 ++ "=" ++ value_str))
  | none => ""

/-- format_line (task_execution_tracker.rs lines 151-165). -/
def format_line (task_info : Option TaskInfo) (line : String) : String :=
  match task_info with
  | some ti =>
    let task_name := get_task_name ti
    let task_type := ti.task.task_type
    let metadata := format_task_metadata ti
    if metadata.isEmpty then
      "[" ++ task_name ++ " (" ++ task_type ++ ")] " ++ line
    else
      "[" ++ task_name ++ " (" ++ task_type ++ ") " ++ metadata ++ "] " ++ line
  | none => line

/-- The per-task snapshot built by send_tasks_update
(task_execution_tracker.rs lines 220-242). -/
def event_task_info (now : Nat) (task_info : TaskInfo) : EventTaskInfo :=
  { id := task_info.task.id
    status := task_info.status
    duration_ms := task_info.start_time.map (fun start =>
      match task_info.end_time with
      | some e => e - start
      | none => now - start)
    current_output := task_info.current_output
    task_type := task_info.task.task_type
    task_name := get_task_name task_info
    task_metadata := format_task_metadata task_info
    error := task_info.error
    result_data := task_info.data }

/-- send_tasks_update (task_execution_tracker.rs lines 209-247): when
cancelled nothing is emitted; otherwise one tasks-update event whose stats
and per-task snapshots are computed from the live task map.  Notification
delivery is modelled as the list of events handed to try_send (a full or
closed channel drops the event downstream of this model). -/
def send_tasks_update (cancelled : Bool) (st : TrackerState) (now : Nat) :
    List TaskExecutionNotificationEvent :=
  if cancelled then []
  else
    let c := count_by_status st.tasks
    [TaskExecutionNotificationEvent.tasksUpdate
      { total := c.1, pending := c.2.1, running := c.2.2.1
        completed := c.2.2.2.1, failed := c.2.2.2.2 }
      (st.tasks.map (fun p => event_task_info now p.2))]

/-- refresh_display (task_execution_tracker.rs lines 249-259). -/
def refresh_display (mode : DisplayMode) (cancelled : Bool) (st : TrackerState)
    (now : Nat) : List TaskExecutionNotificationEvent :=
  match mode with
  | DisplayMode.multipleTasksOutput => send_tasks_update cancelled st now
  | DisplayMode.singleTaskOutput => []

/-- force_refresh_display (task_execution_tracker.rs lines 262-276): in
multi-task mode the throttle timestamp is reset to just past the interval
and a snapshot is sent immediately; single-task mode does nothing. -/
def force_refresh_display (mode : DisplayMode) (cancelled : Bool)
    (st : TrackerState) (now : Nat) :
    TrackerState × List TaskExecutionNotificationEvent :=
  match mode with
  | DisplayMode.multipleTasksOutput =>
    let st1 := { st with last_refresh := now - (THROTTLE_INTERVAL_MS + 1) }
    (st1, send_tasks_update cancelled st1 now)
  | DisplayMode.singleTaskOutput => (st, [])

/-- start_task (task_execution_tracker.rs lines 123-131): a known task is
set Running with its start time; an unknown id leaves the map untouched;
either way the display is force-refreshed. -/
def start_task (mode : DisplayMode) (cancelled : Bool) (st : TrackerState)
    (now : Nat) (task_id : String) :
    TrackerState × List TaskExecutionNotificationEvent :=
  let tasks := update_task st.tasks task_id (fun ti =>
    { ti with status := TaskStatus.running, start_time := some now })
  force_refresh_display mode cancelled { st with tasks := tasks } now

/-- complete_task (task_execution_tracker.rs lines 133-142): a known task
takes the result status, the end time and the result; an unknown id leaves
the map untouched; either way the display is force-refreshed. -/
def complete_task (mode : DisplayMode) (cancelled : Bool) (st : TrackerState)
    (now : Nat) (task_id : String) (result : TaskResult) :
    TrackerState × List TaskExecutionNotificationEvent :=
  let tasks := update_task st.tasks task_id (fun ti =>
    { ti with status := result.status, end_time := some now, result := some result })
  force_refresh_display mode cancelled { st with tasks := tasks } now

/-- should_throttle_refresh (task_execution_tracker.rs lines 197-207):
throttle unless more than the interval elapsed since the last refresh, in
which case the shared timestamp is advanced to now. -/
def should_throttle_refresh (st : TrackerState) (now : Nat) : Bool × TrackerState :=
  if now - st.last_refresh > THROTTLE_INTERVAL_MS then
    (false, { st with last_refresh := now })
  else
    (true, st)

/-- send_live_output (task_execution_tracker.rs lines 167-195): in
single-task mode the line is formatted and emitted immediately with no
state change; in multi-task mode the raw line plus newline is appended to
the task buffer and a snapshot is emitted unless throttled. -/
def send_live_output (mode : DisplayMode) (cancelled : Bool) (st : TrackerState)
    (now : Nat) (task_id : String) (line : String) :
    TrackerState × List TaskExecutionNotificationEvent :=
  match mode with
  | DisplayMode.singleTaskOutput =>
    let formatted_line := format_line (get_task st.tasks task_id) line
    (st, [TaskExecutionNotificationEvent.lineOutput task_id formatted_line])
  | DisplayMode.multipleTasksOutput =>
    let st1 := { st with tasks := update_task st.tasks task_id (fun ti =>
      { ti with current_output := ti.current_output ++ line ++ "\n" }) }
    let tst := should_throttle_refresh st1 now
    if tst.1 then (tst.2, [])
    else (tst.2, refresh_display mode cancelled tst.2 now)

/-- send_tasks_complete (task_execution_tracker.rs lines 278-302): when
cancelled nothing is emitted; otherwise one tasks-complete event whose
stats come from the live map and whose failed list has one entry per task
with status Failed.  The trailing 500 ms delay is timing behaviour with no
effect on the embedded state. -/
def send_tasks_complete (cancelled : Bool) (st : TrackerState) :
    List TaskExecutionNotificationEvent :=
  if cancelled then []
  else
    let c := count_by_status st.tasks
    let failed_tasks : List FailedTaskInfo :=
      ((st.tasks.map (fun p => p.2)).filter
          (fun ti => ti.status == TaskStatus.failed)).map
        (fun ti => { id := ti.task.id, name := get_task_name ti, error := ti.error })
    [TaskExecutionNotificationEvent.tasksComplete
      { total := c.1, completed := c.2.2.2.1, failed := c.2.2.2.2 }
      failed_tasks]

/-- Modelled from the spec: a parsed tool call, name plus arguments
(conversation/message.rs is not part of the corpus). -/
structure ToolCall where
  name : String
  arguments : Json

/-- Modelled from the spec: a ToolRequest is either a successfully parsed
call or a parse-error value, and carries an id to correlate with a future
tool result. -/
structure ToolRequest where
  id : String
  tool_call : Except String ToolCall

/-- Modelled from the spec: one content item of a Message: text, a
tool-call request, or a tool-call result. -/
inductive MessageContent where
  | text (t : String)
  | toolRequest (req : ToolRequest)
  | toolResponse (id : String) (payload : Json)

/-- Modelled from the spec: message roles. -/
inductive Role where
  | user
  | assistant
deriving DecidableEq

/-- Modelled from the spec: a Message is an ordered list of content items
plus an identifier, a role and a creation timestamp. -/
structure Message where
  id : Option String
  role : Role
  created : Int
  content : List MessageContent

/-- The tool requests contained in a message, in content order
(the filter_map at reply_parts.rs lines 247-257). -/
def tool_requests_of (m : Message) : List ToolRequest :=
  m.content.filterMap (fun c =>
    match c with
    | MessageContent.toolRequest req => some req
    | _ => none)

/-- The should_include test of categorize_tool_requests
(reply_parts.rs lines 264-273): a content item is kept unless it is a
successfully parsed tool request whose tool name the frontend registry
claims. -/
def should_include (is_frontend_tool : String → Bool) (c : MessageContent) : Bool :=
  match c with
  | MessageContent.toolRequest req =>
    match req.tool_call with
    | Except.ok tool_call => !is_frontend_tool tool_call.name
    | Except.error _ => true
  | _ => true

/-- The partition loop of categorize_tool_requests
(reply_parts.rs lines 288-302): successfully parsed requests go to the
frontend list when the registry claims their name, every other request
(including parse errors) goes to the other list. -/
def categorize_loop (is_frontend_tool : String → Bool) (reqs : List ToolRequest) :
    List ToolRequest × List ToolRequest :=
  match reqs with
  | [] => ([], [])
  | req :: rest =>
    let acc := categorize_loop is_frontend_tool rest
    match req.tool_call with
    | Except.ok tool_call =>
      if is_frontend_tool tool_call.name then (req :: acc.1, acc.2)
      else (acc.1, req :: acc.2)
    | Except.error _ => (acc.1, req :: acc.2)

/-- categorize_tool_requests (reply_parts.rs lines 242-305): collect the
tool requests, build the filtered message, partition the requests.  The
async frontend-registry test is modelled as the pure predicate
is_frontend_tool. -/
def categorize_tool_requests (is_frontend_tool : String → Bool) (response : Message) :
    List ToolRequest × List ToolRequest × Message :=
  let tool_requests := tool_requests_of response
  let filtered_content := response.content.filter (should_include is_frontend_tool)
  let filtered_message : Message :=
    { id := response.id
      role := response.role
      created := response.created
      content := filtered_content }
  let fo := categorize_loop is_frontend_tool tool_requests
  (fo.1, fo.2, filtered_message)

/-- Modelled from the spec: the slice of rmcp::model::Tool the pipeline
inspects (the tool definitions are opaque to the verified properties
beyond their names). -/
structure ToolDef where
  name : String

/-- Modelled from the spec: the model configuration returned by
get_model_config: model name and the toolshim flag. -/
structure ModelConfig where
  model_name : String
  toolshim : Bool

/-- Modelled from the spec: provider errors surfaced to the turn loop. -/
inductive ProviderError where
  | executionError (msg : String)

/-- Modelled from the spec: the Provider capability: a model config and a
batch completion returning a message plus usage, or a provider error.
Streaming is not needed by the verified properties. -/
structure Provider where
  config : ModelConfig
  complete : String → List Message → List ToolDef →
    Except ProviderError (Message × ProviderUsage)

/-- The concatenated text content of a message, the free-text reply the
Toolshim Adapter interprets. -/
def message_text (m : Message) : String :=
  String.join (m.content.filterMap (fun c =>
    match c with
    | MessageContent.text t => some t
    | _ => none))

/-- Modelled from the spec: the textual form a tool-call content item is
rewritten to by the toolshim message conversion. -/
def content_to_text : MessageContent → MessageContent
  | MessageContent.text t => MessageContent.text t
  | MessageContent.toolRequest req =>
    MessageContent.text
      (match req.tool_call with
       | Except.ok tc => "tool call " ++ tc.name ++ " " ++ tc.arguments.render
       | Except.error e => "tool call error " ++ e)
  | MessageContent.toolResponse id payload =>
    MessageContent.text ("tool result " ++ id ++ " " ++ payload.render)

/-- Modelled from the spec: convert_tool_messages_to_text (the toolshim
module is not part of the corpus): rewrites the messages to textual form
for providers without native tool calling. -/
def convert_tool_messages_to_text (messages : List Message) : List Message :=
  messages.map (fun m => { m with content := m.content.map content_to_text })

/-- Modelled from the spec: augment_message_with_tool_calls (the toolshim
module is not part of the corpus): the interpreter parses the free-text
reply into structured tool calls, which are attached to the message as
successfully parsed tool-request content items.  The interpreter itself is
a parameter; its use of the shim tool list is part of the parameter. -/
def augment_message_with_tool_calls (interpret : String → List ToolCall)
    (response : Message) : Message :=
  { response with
    content := response.content ++
      (List.enum (interpret (message_text response))).map (fun p =>
        MessageContent.toolRequest { id := toString p.1, tool_call := Except.ok p.2 }) }

/-- toolshim_postprocess (reply_parts.rs lines 21-32): re-parse the reply
into structured tool calls via the Toolshim Adapter.  Interpreter
construction failure is outside the embedded runs, which quantify over a
given interpreter. -/
def toolshim_postprocess (interpret : List ToolDef → String → List ToolCall)
    (response : Message) (toolshim_tools : List ToolDef) : Message :=
  augment_message_with_tool_calls (interpret toolshim_tools) response

/-- Modelled from the spec: Usage.ensure_tokens (providers/base.rs is not
part of the corpus): token counts the provider did not report are
backfilled from an estimate; the estimation step itself can fail.  The
estimator is a parameter. -/
def ensure_tokens
    (estimator : String → List Message → Message → List ToolDef →
      Except ProviderError Usage)
    (u : Usage) (system_prompt : String) (messages : List Message)
    (response : Message) (tools : List ToolDef) : Except ProviderError Usage :=
  if u.input_tokens.isSome && u.output_tokens.isSome && u.total_tokens.isSome then
    Except.ok u
  else
    match estimator system_prompt messages response tools with
    | Except.error e => Except.error e
    | Except.ok est =>
      Except.ok
        { input_tokens := u.input_tokens.or est.input_tokens
          output_tokens := u.output_tokens.or est.output_tokens
          total_tokens := u.total_tokens.or est.total_tokens }

/-- generate_response_from_provider (reply_parts.rs lines 111-149):
convert messages to text when toolshim is enabled, call the provider,
ensure token counts, publish the model name (the process-wide
set_current_model is modelled as the third component of the result), and
re-parse the reply through the Toolshim Adapter when toolshim is
enabled. -/
def generate_response_from_provider (provider : Provider)
    (interpret : List ToolDef → String → List ToolCall)
    (estimator : String → List Message → Message → List ToolDef →
      Except ProviderError Usage)
    (system_prompt : String) (messages : List Message)
    (tools toolshim_tools : List ToolDef) :
    Except ProviderError (Message × ProviderUsage × String) :=
  let config := provider.config
  let messages_for_provider :=
    if config.toolshim then convert_tool_messages_to_text messages else messages
  match provider.complete system_prompt messages_for_provider tools with
  | Except.error e => Except.error e
  | Except.ok (response, pu) =>
    match ensure_tokens estimator pu.usage system_prompt messages_for_provider
        response tools with
    | Except.error e => Except.error e
    | Except.ok usage =>
      let pu1 : ProviderUsage := { pu with usage := usage }
      let published := pu1.model
      let response1 :=
        if config.toolshim then toolshim_postprocess interpret response toolshim_tools
        else response
      Except.ok (response1, pu1, published)

/-! ### Helper lemmas on the task map -/

/-- Reading the entry just updated yields the mutated value. -/
theorem get_task_update_self (tasks : List (String × TaskInfo)) (task_id : String)
    (f : TaskInfo → TaskInfo) :
    get_task (update_task tasks task_id f) task_id = (get_task tasks task_id).map f := by
  induction tasks with
  | nil => rfl
  | cons p rest ih =>
    cases hb : (p.1 == task_id) with
    | true => simp [get_task, update_task, List.find?, hb]
    | false =>
      simp only [update_task, hb, Bool.false_eq_true, if_false]
      simp only [get_task, List.find?, hb] at ih ⊢
      exact ih

/-- Updating one entry leaves every other key unchanged. -/
theorem get_task_update_other (tasks : List (String × TaskInfo)) (task_id j : String)
    (f : TaskInfo → TaskInfo) (h : j ≠ task_id) :
    get_task (update_task tasks task_id f) j = get_task tasks j := by
  induction tasks with
  | nil => rfl
  | cons p rest ih =>
    cases hb : (p.1 == task_id) with
    | true =>
      have hpeq : p.1 = task_id := by simpa using hb
      have hj : (p.1 == j) = false := by
        simp [hpeq]
        exact fun hc => h hc.symm
      simp [get_task, update_task, List.find?, hb, hj]
    | false =>
      simp only [update_task, hb, Bool.false_eq_true, if_false]
      simp only [get_task, List.find?] at ih ⊢
      cases hq : (p.1 == j) with
      | true => simp [hq]
      | false => simpa [hq] using ih

/-- Updating an absent key is the identity on the map. -/
theorem update_task_absent (tasks : List (String × TaskInfo)) (task_id : String)
    (f : TaskInfo → TaskInfo) (h : get_task tasks task_id = none) :
    update_task tasks task_id f = tasks := by
  induction tasks with
  | nil => rfl
  | cons p rest ih =>
    cases hb : (p.1 == task_id) with
    | true => simp [get_task, List.find?, hb] at h
    | false =>
      simp only [get_task, List.find?, hb] at h
      simp only [update_task, hb, Bool.false_eq_true, if_false]
      rw [ih (by simpa [get_task] using h)]

/-! ### C1: token accumulation in update_session_metrics -/

/-- A session metadata value whose prior accumulated total is 5. -/
def md_prior5 : SessionMetadata :=
  { schedule_id := none
    total_tokens := none
    input_tokens := none
    output_tokens := none
    message_count := 0
    accumulated_total_tokens := some 5
    accumulated_input_tokens := none
    accumulated_output_tokens := none }

/-- A turn usage reporting a pathological negative total of -3. -/
def usage_neg3 : ProviderUsage :=
  { model := "m"
    usage := { input_tokens := none, output_tokens := none, total_tokens := some (-3) } }

/-- A turn usage reporting a total of 3. -/
def usage_pos3 : ProviderUsage :=
  { model := "m"
    usage := { input_tokens := none, output_tokens := none, total_tokens := some 3 } }

/-- C1, counterexample: the claim that a negative turn usage never
decreases the accumulated total fails on the code: with a prior
accumulated total of 5 and a turn usage of -3, update_session_metrics
stores 2, not 5 — the accumulate closure adds the delta unconditionally. -/
theorem update_session_metrics_negative_delta_counterexample :
    (update_session_metrics none usage_neg3 0 md_prior5).accumulated_total_tokens
        = some 2 ∧
    (update_session_metrics none usage_neg3 0 md_prior5).accumulated_total_tokens
        ≠ some 5 := by
  constructor <;> decide

/-- C1, amended: update_session_metrics accumulates by unconditional
addition: when both the prior accumulated total and the turn usage are
present the new accumulated total is their sum — including negative
deltas, which do reduce the total; a missing prior total is treated as
zero (the delta alone is kept); a missing delta leaves the prior total. -/
theorem update_session_metrics_accumulates_sum (schedule_id : Option String)
    (usage : ProviderUsage) (n : Nat) (md : SessionMetadata) :
    (∀ x y : Int, md.accumulated_total_tokens = some x →
      usage.usage.total_tokens = some y →
      (update_session_metrics schedule_id usage n md).accumulated_total_tokens
        = some (x + y)) ∧
    (md.accumulated_total_tokens = none →
      (update_session_metrics schedule_id usage n md).accumulated_total_tokens
        = usage.usage.total_tokens) ∧
    (usage.usage.total_tokens = none →
      (update_session_metrics schedule_id usage n md).accumulated_total_tokens
        = md.accumulated_total_tokens) := by
  refine ⟨fun x y hx hy => ?_, fun hmd => ?_, fun hu => ?_⟩
  · simp [update_session_metrics, accumulate, hx, hy]
  · cases hu : usage.usage.total_tokens <;>
      simp [update_session_metrics, accumulate, hmd, hu]
  · cases hmd : md.accumulated_total_tokens <;>
      simp [update_session_metrics, accumulate, hmd, hu]

/-- C1, witness for the amended theorem: prior accumulated total 5 with
turn usage 3 accumulates to 8, and prior 5 with turn usage -3 accumulates
to 2. -/
theorem update_session_metrics_accumulates_sum_witness :
    (update_session_metrics none usage_pos3 0 md_prior5).accumulated_total_tokens
        = some (5 + 3) ∧
    (update_session_metrics none usage_neg3 0 md_prior5).accumulated_total_tokens
        = some (5 + -3) :=
  ⟨(update_session_metrics_accumulates_sum none usage_pos3 0 md_prior5).1 5 3 rfl rfl,
   (update_session_metrics_accumulates_sum none usage_neg3 0 md_prior5).1 5 (-3) rfl rfl⟩

/-! ### Tracker state accessors and structural lemmas -/

/-- The status of a task in a tracker state. -/
def task_status_of (st : TrackerState) (task_id : String) : Option TaskStatus :=
  (get_task st.tasks task_id).map (fun ti => ti.status)

/-- The start time of a task in a tracker state. -/
def task_start_time_of (st : TrackerState) (task_id : String) : Option (Option Nat) :=
  (get_task st.tasks task_id).map (fun ti => ti.start_time)

/-- The end time of a task in a tracker state. -/
def task_end_time_of (st : TrackerState) (task_id : String) : Option (Option Nat) :=
  (get_task st.tasks task_id).map (fun ti => ti.end_time)

/-- The retained output buffer of a task in a tracker state. -/
def task_output_of (st : TrackerState) (task_id : String) : Option String :=
  (get_task st.tasks task_id).map (fun ti => ti.current_output)

/-- start_task changes the task map exactly by the Running mutation on the
target id, in either display mode. -/
theorem start_task_tasks (mode : DisplayMode) (cancelled : Bool) (st : TrackerState)
    (now : Nat) (task_id : String) :
    (start_task mode cancelled st now task_id).1.tasks =
      update_task st.tasks task_id
        (fun ti => { ti with status := TaskStatus.running, start_time := some now }) := by
  cases mode <;> rfl

/-- complete_task changes the task map exactly by the terminal mutation on
the target id, in either display mode. -/
theorem complete_task_tasks (mode : DisplayMode) (cancelled : Bool) (st : TrackerState)
    (now : Nat) (task_id : String) (result : TaskResult) :
    (complete_task mode cancelled st now task_id result).1.tasks =
      update_task st.tasks task_id
        (fun ti =>
          { ti with
            status := result.status
            end_time := some now
            result := some result }) := by
  cases mode <;> rfl

/-- send_live_output changes the task map only in multi-task mode, and
there exactly by the buffer append on the target id. -/
theorem send_live_output_tasks (mode : DisplayMode) (cancelled : Bool)
    (st : TrackerState) (now : Nat) (task_id : String) (line : String) :
    (send_live_output mode cancelled st now task_id line).1.tasks =
      match mode with
      | DisplayMode.singleTaskOutput => st.tasks
      | DisplayMode.multipleTasksOutput =>
        update_task st.tasks task_id
          (fun ti => { ti with current_output := ti.current_output ++ line ++ "\n" }) := by
  cases mode
  case singleTaskOutput => rfl
  case multipleTasksOutput =>
    by_cases hc : now - st.last_refresh > THROTTLE_INTERVAL_MS <;>
      simp [send_live_output, should_throttle_refresh, hc]

/-! ### Concrete fixtures for witnesses and counterexamples -/

/-- A fixture task with both a string-valued and a number-valued command
parameter. -/
def task_a : Task :=
  { id := "A"
    task_type := "sub_recipe"
    name := some "alpha"
    command_parameters := some [("k", Json.str "v"), ("n", Json.num 3)] }

/-- A fixture task with no command parameters. -/
def task_b : Task :=
  { id := "B"
    task_type := "text_instruction"
    name := none
    command_parameters := none }

/-- A successful terminal result. -/
def result_completed : TaskResult :=
  { status := TaskStatus.completed, error := none, data := none }

/-- A failed terminal result carrying an error payload. -/
def result_failed : TaskResult :=
  { status := TaskStatus.failed, error := some "boom", data := none }

/-! ### C2: task status transitions -/

/-- C2, counterexample: the claim that no start or complete call leaves a
terminal state fails on the code: completing task A (status Completed) and
then calling start on it sets the status back to Running — start_task
assigns Running to any known task with no guard on the current status. -/
theorem start_after_complete_counterexample :
    task_status_of ((complete_task DisplayMode.multipleTasksOutput false
        (new_tracker [task_a] 0) 10 "A" result_completed).1) "A"
      = some TaskStatus.completed ∧
    task_status_of ((start_task DisplayMode.multipleTasksOutput false
        ((complete_task DisplayMode.multipleTasksOutput false
          (new_tracker [task_a] 0) 10 "A" result_completed).1) 20 "A").1) "A"
      = some TaskStatus.running ∧
    TaskStatus.running ≠ TaskStatus.completed ∧
    TaskStatus.running ≠ TaskStatus.failed := by
  refine ⟨rfl, rfl, by decide, by decide⟩

/-- C2, amended: start_task sets any known task's status to Running and
complete_task sets it to the result's status, unconditionally — in
particular the usual Pending-to-Running and Running-to-terminal
transitions occur, but terminal states are not guarded: a later start
call moves a Completed or Failed task back to Running. -/
theorem start_complete_set_status_unconditionally (mode : DisplayMode)
    (cancelled : Bool) (st : TrackerState) (now : Nat) (task_id : String)
    (result : TaskResult) (ti : TaskInfo)
    (h : get_task st.tasks task_id = some ti) :
    task_status_of (start_task mode cancelled st now task_id).1 task_id
      = some TaskStatus.running ∧
    task_status_of (complete_task mode cancelled st now task_id result).1 task_id
      = some result.status := by
  unfold task_status_of
  rw [start_task_tasks, complete_task_tasks, get_task_update_self,
    get_task_update_self, h]
  exact ⟨rfl, rfl⟩

/-- C2, witness: on a fresh tracker holding task A, start sets Running and
complete with a Failed result sets Failed. -/
theorem start_complete_set_status_unconditionally_witness :
    task_status_of (start_task DisplayMode.multipleTasksOutput false
        (new_tracker [task_a] 0) 5 "A").1 "A" = some TaskStatus.running ∧
    task_status_of (complete_task DisplayMode.multipleTasksOutput false
        (new_tracker [task_a] 0) 5 "A" result_failed).1 "A"
      = some TaskStatus.failed :=
  start_complete_set_status_unconditionally DisplayMode.multipleTasksOutput false
    (new_tracker [task_a] 0) 5 "A" result_failed _ rfl

/-! ### C3: end_time discipline -/

/-- C3, counterexample: the claim that end_time is only ever set when
start_time is already set fails on the code: completing a task that was
never started stores an end time while the start time is still absent —
complete_task has no guard on the current state. -/
theorem end_time_without_start_counterexample :
    task_end_time_of ((complete_task DisplayMode.multipleTasksOutput false
        (new_tracker [task_a] 0) 10 "A" result_completed).1) "A"
      = some (some 10) ∧
    task_start_time_of ((complete_task DisplayMode.multipleTasksOutput false
        (new_tracker [task_a] 0) 10 "A" result_completed).1) "A"
      = some none := by
  exact ⟨rfl, rfl⟩

/-- C3, amended: end_time starts unset for every task of a fresh tracker
and is modified by complete_task alone: start_task and send_live_output
preserve every task's end_time, while complete_task sets the target
task's end time to the completion instant at the same moment it installs
the result status — each complete call overwrites it, and a complete call
without a prior start sets it while start_time is still unset. -/
theorem end_time_only_set_by_complete :
    (∀ (ts : List Task) (now0 : Nat) (task_id : String) (ti : TaskInfo),
      get_task (new_tracker ts now0).tasks task_id = some ti →
      ti.end_time = none) ∧
    (∀ (mode : DisplayMode) (cancelled : Bool) (st : TrackerState) (now : Nat)
      (task_id j : String),
      task_end_time_of (start_task mode cancelled st now task_id).1 j
        = task_end_time_of st j) ∧
    (∀ (mode : DisplayMode) (cancelled : Bool) (st : TrackerState) (now : Nat)
      (task_id j : String) (line : String),
      task_end_time_of (send_live_output mode cancelled st now task_id line).1 j
        = task_end_time_of st j) ∧
    (∀ (mode : DisplayMode) (cancelled : Bool) (st : TrackerState) (now : Nat)
      (task_id : String) (result : TaskResult) (ti : TaskInfo),
      get_task st.tasks task_id = some ti →
      task_end_time_of (complete_task mode cancelled st now task_id result).1 task_id
          = some (some now) ∧
        task_status_of (complete_task mode cancelled st now task_id result).1 task_id
          = some result.status) ∧
    (∀ (mode : DisplayMode) (cancelled : Bool) (st : TrackerState) (now : Nat)
      (task_id j : String) (result : TaskResult), j ≠ task_id →
      task_end_time_of (complete_task mode cancelled st now task_id result).1 j
        = task_end_time_of st j) := by
  refine ⟨?_, ?_, ?_, ?_, ?_⟩
  · intro ts now0 task_id ti h
    induction ts with
    | nil => simp [new_tracker, get_task, List.find?] at h
    | cons t rest ih =>
      simp only [new_tracker, List.map, get_task, List.find?] at h ih
      cases hb : (t.id == task_id) with
      | true =>
        rw [hb] at h
        cases h
        rfl
      | false =>
        rw [hb] at h
        exact ih h
  · intro mode cancelled st now task_id j
    unfold task_end_time_of
    rw [start_task_tasks]
    by_cases hj : j = task_id
    · subst hj
      rw [get_task_update_self]
      cases get_task st.tasks j <;> rfl
    · rw [get_task_update_other _ _ _ _ hj]
  · intro mode cancelled st now task_id j line
    unfold task_end_time_of
    rw [send_live_output_tasks]
    cases mode
    · by_cases hj : j = task_id
      · subst hj
        rw [get_task_update_self]
        cases get_task st.tasks j <;> rfl
      · rw [get_task_update_other _ _ _ _ hj]
    · rfl
  · intro mode cancelled st now task_id result ti h
    unfold task_end_time_of task_status_of
    rw [complete_task_tasks, get_task_update_self, h]
    exact ⟨rfl, rfl⟩
  · intro mode cancelled st now task_id j result hj
    unfold task_end_time_of
    rw [complete_task_tasks, get_task_update_other _ _ _ _ hj]

/-- C3, witness: on a fresh tracker holding task A, the end time is unset,
a live-output call leaves it unset, and completing at instant 7 sets it to
7 together with the Completed status. -/
theorem end_time_only_set_by_complete_witness :
    ((new_tracker [task_a] 0).tasks.head?.map (fun p => p.2.end_time) = some none ∧
      task_end_time_of (send_live_output DisplayMode.multipleTasksOutput false
        (new_tracker [task_a] 0) 3 "A" "x").1 "A"
        = task_end_time_of (new_tracker [task_a] 0) "A") ∧
    task_end_time_of (complete_task DisplayMode.multipleTasksOutput false
        (new_tracker [task_a] 0) 7 "A" result_completed).1 "A" = some (some 7) ∧
    task_status_of (complete_task DisplayMode.multipleTasksOutput false
        (new_tracker [task_a] 0) 7 "A" result_completed).1 "A"
      = some TaskStatus.completed :=
  ⟨⟨rfl,
    end_time_only_set_by_complete.2.2.1 DisplayMode.multipleTasksOutput false
      (new_tracker [task_a] 0) 3 "A" "A" "x"⟩,
   end_time_only_set_by_complete.2.2.2.1 DisplayMode.multipleTasksOutput false
     (new_tracker [task_a] 0) 7 "A" result_completed _ rfl⟩

/-! ### C10: unknown task ids are no-ops -/

/-- C10: calling start or complete with a task id absent from the map
returns normally and leaves the task map — hence the state of every task —
unchanged. -/
theorem unknown_task_id_noop (mode : DisplayMode) (cancelled : Bool)
    (st : TrackerState) (now : Nat) (task_id : String) (result : TaskResult)
    (h : get_task st.tasks task_id = none) :
    (start_task mode cancelled st now task_id).1.tasks = st.tasks ∧
    (complete_task mode cancelled st now task_id result).1.tasks = st.tasks := by
  rw [start_task_tasks, complete_task_tasks, update_task_absent _ _ _ h,
    update_task_absent _ _ _ h]
  exact ⟨rfl, rfl⟩

/-- C10, witness: starting or completing the unknown id Z on a tracker
holding only task A leaves the task map unchanged. -/
theorem unknown_task_id_noop_witness :
    (start_task DisplayMode.multipleTasksOutput false
        (new_tracker [task_a] 0) 5 "Z").1.tasks = (new_tracker [task_a] 0).tasks ∧
    (complete_task DisplayMode.multipleTasksOutput false
        (new_tracker [task_a] 0) 5 "Z" result_failed).1.tasks
      = (new_tracker [task_a] 0).tasks :=
  unknown_task_id_noop DisplayMode.multipleTasksOutput false
    (new_tracker [task_a] 0) 5 "Z" result_failed rfl

/-! ### C5: the tasks-complete event -/

/-- Filtering the values of the task map commutes with projecting the
values out of the entries. -/
theorem filter_map_snd (tasks : List (String × TaskInfo)) (q : TaskInfo → Bool) :
    (tasks.map (fun p => p.2)).filter q
      = (tasks.filter (fun p => q p.2)).map (fun p => p.2) := by
  induction tasks with
  | nil => rfl
  | cons p rest ih => cases hq : q p.2 <;> simp [List.filter, hq, ih]

/-- C5: one complete-all call on a non-cancelled tracker emits exactly one
tasks-complete event; its stats are the total, completed and failed counts
of the task map at emission time, and its failed list carries one entry —
id, display name, optional error — per task whose status is Failed, so its
length equals the live count of failed tasks. -/
theorem send_tasks_complete_one_event (st : TrackerState) :
    send_tasks_complete false st =
      [TaskExecutionNotificationEvent.tasksComplete
        { total := st.tasks.length
          completed := ((st.tasks.map (fun p => p.2)).filter
            (fun ti => ti.status == TaskStatus.completed)).length
          failed := ((st.tasks.map (fun p => p.2)).filter
            (fun ti => ti.status == TaskStatus.failed)).length }
        (((st.tasks.map (fun p => p.2)).filter
            (fun ti => ti.status == TaskStatus.failed)).map
          (fun ti => { id := ti.task.id, name := get_task_name ti, error := ti.error }))] ∧
    (((st.tasks.map (fun p => p.2)).filter
        (fun ti => ti.status == TaskStatus.failed)).map
      (fun ti : TaskInfo =>
        ({ id := ti.task.id, name := get_task_name ti, error := ti.error } :
          FailedTaskInfo))).length
      = ((st.tasks.map (fun p => p.2)).filter
          (fun ti => ti.status == TaskStatus.failed)).length := by
  constructor
  · simp [send_tasks_complete, count_by_status, filter_map_snd]
  · simp

/-! ### C6: the multi-task output buffer -/

/-- A sequence of recordOutputLine calls for one task: each call carries
the cancellation flag and the instant observed at call time, plus the raw
line. -/
def run_live_outputs (mode : DisplayMode) : TrackerState → String →
    List (Bool × Nat × String) → TrackerState × List TaskExecutionNotificationEvent
  | st, _, [] => (st, [])
  | st, task_id, c :: rest =>
    let r1 := send_live_output mode c.1 st c.2.1 task_id c.2.2
    let r2 := run_live_outputs mode r1.1 task_id rest
    (r2.1, r1.2 ++ r2.2)

/-- The lines of a call sequence concatenated in call order, each followed
by the newline that send_live_output appends. -/
def joined_lines : List (Bool × Nat × String) → String
  | [] => ""
  | c :: rest => c.2.2 ++ "\n" ++ joined_lines rest

/-- In multi-task mode one live-output call for a known task replaces its
buffer by the old buffer with the line and a newline appended. -/
theorem send_live_output_appends (cancelled : Bool) (st : TrackerState) (now : Nat)
    (task_id : String) (line : String) (ti : TaskInfo)
    (h : get_task st.tasks task_id = some ti) :
    task_output_of
        (send_live_output DisplayMode.multipleTasksOutput cancelled st now
          task_id line).1 task_id
      = some (ti.current_output ++ (line ++ "\n")) := by
  unfold task_output_of
  rw [send_live_output_tasks, get_task_update_self, h]
  simp [String.append_assoc]

/-- C6: in multi-task mode the retained buffer of a known task is only
appended to — after any sequence of recordOutputLine calls it holds the
prior buffer followed by all the lines in call order, newline-separated —
start and complete calls never modify any task's buffer, and in
single-task mode the tracker state is left entirely unchanged, so no
buffer is retained. -/
theorem live_output_buffer_append_only :
    (∀ (st : TrackerState) (task_id : String) (calls : List (Bool × Nat × String))
      (ti : TaskInfo), get_task st.tasks task_id = some ti →
      task_output_of
          (run_live_outputs DisplayMode.multipleTasksOutput st task_id calls).1 task_id
        = some (ti.current_output ++ joined_lines calls)) ∧
    (∀ (mode : DisplayMode) (cancelled : Bool) (st : TrackerState) (now : Nat)
      (task_id j : String),
      task_output_of (start_task mode cancelled st now task_id).1 j
        = task_output_of st j) ∧
    (∀ (mode : DisplayMode) (cancelled : Bool) (st : TrackerState) (now : Nat)
      (task_id j : String) (result : TaskResult),
      task_output_of (complete_task mode cancelled st now task_id result).1 j
        = task_output_of st j) ∧
    (∀ (st : TrackerState) (task_id : String) (calls : List (Bool × Nat × String)),
      (run_live_outputs DisplayMode.singleTaskOutput st task_id calls).1 = st) := by
  refine ⟨?_, ?_, ?_, ?_⟩
  · intro st task_id calls
    induction calls generalizing st with
    | nil =>
      intro ti h
      simp [run_live_outputs, joined_lines, task_output_of, h]
    | cons c rest ih =>
      intro ti h
      have h1 : get_task
          (send_live_output DisplayMode.multipleTasksOutput c.1 st c.2.1
            task_id c.2.2).1.tasks task_id
          = some { ti with current_output := ti.current_output ++ c.2.2 ++ "\n" } := by
        rw [send_live_output_tasks, get_task_update_self, h]
        rfl
      have h2 := ih (send_live_output DisplayMode.multipleTasksOutput c.1 st c.2.1
        task_id c.2.2).1 _ h1
      unfold run_live_outputs
      rw [h2]
      simp [joined_lines, String.append_assoc]
  · intro mode cancelled st now task_id j
    unfold task_output_of
    rw [start_task_tasks]
    by_cases hj : j = task_id
    · subst hj
      rw [get_task_update_self]
      cases get_task st.tasks j <;> rfl
    · rw [get_task_update_other _ _ _ _ hj]
  · intro mode cancelled st now task_id j result
    unfold task_output_of
    rw [complete_task_tasks]
    by_cases hj : j = task_id
    · subst hj
      rw [get_task_update_self]
      cases get_task st.tasks j <;> rfl
    · rw [get_task_update_other _ _ _ _ hj]
  · intro st task_id calls
    induction calls with
    | nil => rfl
    | cons c rest ih => simpa [run_live_outputs, send_live_output] using ih

/-- C6, witness: two output lines x and y for task A leave the buffer
holding both lines in call order, and the same two calls in single-task
mode leave the tracker state untouched. -/
theorem live_output_buffer_append_only_witness :
    task_output_of
        (run_live_outputs DisplayMode.multipleTasksOutput (new_tracker [task_a] 0) "A"
          [(false, 1, "x"), (false, 2, "y")]).1 "A"
      = some ("" ++ joined_lines [(false, 1, "x"), (false, 2, "y")]) ∧
    (run_live_outputs DisplayMode.singleTaskOutput (new_tracker [task_a] 0) "A"
        [(false, 1, "x"), (false, 2, "y")]).1 = new_tracker [task_a] 0 :=
  ⟨live_output_buffer_append_only.1 (new_tracker [task_a] 0) "A"
      [(false, 1, "x"), (false, 2, "y")] _ rfl,
   live_output_buffer_append_only.2.2.2 (new_tracker [task_a] 0) "A"
      [(false, 1, "x"), (false, 2, "y")]⟩

/-! ### C7: snapshot throttling and forced refreshes -/

/-- Recognizer for tasks-update events. -/
def is_tasks_update : TaskExecutionNotificationEvent → Bool
  | TaskExecutionNotificationEvent.tasksUpdate _ _ => true
  | _ => false

/-- C7: in multi-task mode, output-driven snapshots are throttled through
the shared last-refresh timestamp: a live-output call within the 250 ms
window emits nothing and leaves the timestamp alone, a call past the
window emits exactly one tasks-update snapshot and advances the timestamp
to now (opening a new window that suppresses immediately following output
calls), while start and complete bypass the throttle — whatever the
timestamp holds, they reset it to just past the interval and their
snapshot is emitted immediately. -/
theorem throttle_window_and_forced_refresh :
    (∀ (cancelled : Bool) (st : TrackerState) (now : Nat) (task_id line : String),
      now - st.last_refresh ≤ THROTTLE_INTERVAL_MS →
      (send_live_output DisplayMode.multipleTasksOutput cancelled st now
          task_id line).2 = [] ∧
      (send_live_output DisplayMode.multipleTasksOutput cancelled st now
          task_id line).1.last_refresh = st.last_refresh) ∧
    (∀ (st : TrackerState) (now : Nat) (task_id line : String),
      now - st.last_refresh > THROTTLE_INTERVAL_MS →
      ((send_live_output DisplayMode.multipleTasksOutput false st now
          task_id line).2.length = 1 ∧
        ∀ e ∈ (send_live_output DisplayMode.multipleTasksOutput false st now
          task_id line).2, is_tasks_update e = true) ∧
      (send_live_output DisplayMode.multipleTasksOutput false st now
          task_id line).1.last_refresh = now) ∧
    (∀ (st : TrackerState) (now : Nat) (task_id : String),
      ((start_task DisplayMode.multipleTasksOutput false st now task_id).2.length = 1 ∧
        ∀ e ∈ (start_task DisplayMode.multipleTasksOutput false st now task_id).2,
          is_tasks_update e = true) ∧
      (start_task DisplayMode.multipleTasksOutput false st now task_id).1.last_refresh
        = now - (THROTTLE_INTERVAL_MS + 1)) ∧
    (∀ (st : TrackerState) (now : Nat) (task_id : String) (result : TaskResult),
      ((complete_task DisplayMode.multipleTasksOutput false st now task_id
          result).2.length = 1 ∧
        ∀ e ∈ (complete_task DisplayMode.multipleTasksOutput false st now task_id
          result).2, is_tasks_update e = true) ∧
      (complete_task DisplayMode.multipleTasksOutput false st now task_id
          result).1.last_refresh = now - (THROTTLE_INTERVAL_MS + 1)) := by
  refine ⟨?_, ?_, ?_, ?_⟩
  · intro cancelled st now task_id line h
    have hc : ¬(now - st.last_refresh > THROTTLE_INTERVAL_MS) := not_lt.mpr h
    constructor <;>
      simp [send_live_output, should_throttle_refresh, hc]
  · intro st now task_id line h
    refine ⟨⟨?_, ?_⟩, ?_⟩ <;>
      simp [send_live_output, should_throttle_refresh, refresh_display,
        send_tasks_update, is_tasks_update, h]
  · intro st now task_id
    refine ⟨⟨?_, ?_⟩, ?_⟩ <;>
      simp [start_task, force_refresh_display, send_tasks_update, is_tasks_update]
  · intro st now task_id result
    refine ⟨⟨?_, ?_⟩, ?_⟩ <;>
      simp [complete_task, force_refresh_display, send_tasks_update, is_tasks_update]

/-- C7, witness: with the last refresh at instant 100, an output line at
instant 200 (within the window) emits nothing, one at instant 400 (past
the window) emits one snapshot and moves the timestamp to 400, and a start
call at instant 200 emits its snapshot regardless. -/
theorem throttle_window_and_forced_refresh_witness :
    (send_live_output DisplayMode.multipleTasksOutput false
        { tasks := (new_tracker [task_a] 0).tasks, last_refresh := 100 } 200
        "A" "x").2 = [] ∧
    (send_live_output DisplayMode.multipleTasksOutput false
        { tasks := (new_tracker [task_a] 0).tasks, last_refresh := 100 } 400
        "A" "x").2.length = 1 ∧
    (send_live_output DisplayMode.multipleTasksOutput false
        { tasks := (new_tracker [task_a] 0).tasks, last_refresh := 100 } 400
        "A" "x").1.last_refresh = 400 ∧
    (start_task DisplayMode.multipleTasksOutput false
        { tasks := (new_tracker [task_a] 0).tasks, last_refresh := 100 } 200
        "A").2.length = 1 :=
  ⟨(throttle_window_and_forced_refresh.1 false
      { tasks := (new_tracker [task_a] 0).tasks, last_refresh := 100 } 200 "A" "x"
      (by decide)).1,
   (throttle_window_and_forced_refresh.2.1
      { tasks := (new_tracker [task_a] 0).tasks, last_refresh := 100 } 400 "A" "x"
      (by decide)).1.1,
   (throttle_window_and_forced_refresh.2.1
      { tasks := (new_tracker [task_a] 0).tasks, last_refresh := 100 } 400 "A" "x"
      (by decide)).2,
   (throttle_window_and_forced_refresh.2.2.1
      { tasks := (new_tracker [task_a] 0).tasks, last_refresh := 100 } 200 "A").1.1⟩

/-! ### C8: single-task line output formatting -/

/-- C8: in single-task mode every recordOutputLine call for a known task
emits exactly one line-output event and changes no state; the line is
prefixed with the bracketed name, type and metadata — the metadata and its
leading space omitted when the metadata string is empty — and the metadata
string is the comma-joined key=value list of the task's command
parameters, string values verbatim, other values in their generic JSON
rendering, empty or absent parameter sets giving the empty string. -/
theorem single_task_line_output_format (cancelled : Bool) (st : TrackerState)
    (now : Nat) (task_id line : String) (ti : TaskInfo)
    (h : get_task st.tasks task_id = some ti) :
    send_live_output DisplayMode.singleTaskOutput cancelled st now task_id line
      = (st,
        [TaskExecutionNotificationEvent.lineOutput task_id
          (if format_task_metadata ti = "" then
            "[" ++ get_task_name ti ++ " (" ++ ti.task.task_type ++ ")] " ++ line
          else
            "[" ++ get_task_name ti ++ " (" ++ ti.task.task_type ++ ") "
              ++ format_task_metadata ti ++ "] " ++ line)]) ∧
    (∀ params, ti.task.command_parameters = some params → params ≠ [] →
      format_task_metadata ti
        = String.intercalate ","
            (params.map (fun kv =>
              kv.1 ++ "=" ++
                (match kv.2 with
                 | Json.str s => s
                 | v => v.render)))) ∧
    (ti.task.command_parameters = some [] → format_task_metadata ti = "") ∧
    (ti.task.command_parameters = none → format_task_metadata ti = "") := by
  refine ⟨?_, ?_, ?_, ?_⟩
  · simp only [send_live_output, format_line, h]
    by_cases hm : format_task_metadata ti = ""
    · simp [hm, String.isEmpty_iff]
    · have hm2 : ¬(format_task_metadata ti).isEmpty = true := by
        simpa [String.isEmpty_iff] using hm
      rw [if_neg hm2, if_neg hm]
  · intro params hp hne
    simp [format_task_metadata, Task.get_command_parameters, hp, hne]
  · intro hp
    simp [format_task_metadata, Task.get_command_parameters, hp]
  · intro hp
    simp [format_task_metadata, Task.get_command_parameters, hp]

/-- C8, witness: task A has parameters k=v (string, verbatim) and n=3
(number, generic rendering); its output line carries the full bracketed
prefix, while task B with no parameters gets the short prefix. -/
theorem single_task_line_output_format_witness :
    (send_live_output DisplayMode.singleTaskOutput false
        (new_tracker [task_a, task_b] 0) 1 "A" "hello").2
      = [TaskExecutionNotificationEvent.lineOutput "A"
          "[alpha (sub_recipe) k=v,n=3] hello"] ∧
    (send_live_output DisplayMode.singleTaskOutput false
        (new_tracker [task_a, task_b] 0) 1 "B" "hi").2
      = [TaskExecutionNotificationEvent.lineOutput "B"
          "[B (text_instruction)] hi"] := by
  constructor
  · rw [(single_task_line_output_format false (new_tracker [task_a, task_b] 0)
      1 "A" "hello" _ rfl).1]
    rfl
  · rw [(single_task_line_output_format false (new_tracker [task_a, task_b] 0)
      1 "B" "hi" _ rfl).1]
    rfl

/-! ### C9: classifying tool requests -/

/-- A tool request is frontend-handled when it parsed successfully and the
registry claims its tool name. -/
def is_frontend_request (is_frontend_tool : String → Bool) (r : ToolRequest) : Bool :=
  match r.tool_call with
  | Except.ok tool_call => is_frontend_tool tool_call.name
  | Except.error _ => false

/-- The request-partition loop agrees with filtering by the
frontend-handled test: frontend requests in order, then the rest in
order. -/
theorem categorize_loop_eq_filter (is_frontend_tool : String → Bool)
    (reqs : List ToolRequest) :
    categorize_loop is_frontend_tool reqs
      = (reqs.filter (is_frontend_request is_frontend_tool),
         reqs.filter (fun r => !is_frontend_request is_frontend_tool r)) := by
  induction reqs with
  | nil => rfl
  | cons r rest ih =>
    cases htc : r.tool_call with
    | ok tool_call =>
      cases hf : is_frontend_tool tool_call.name <;>
        simp [categorize_loop, List.filter, is_frontend_request, htc, hf, ih]
    | error e =>
      simp [categorize_loop, List.filter, is_frontend_request, htc, ih]

/-- C9: classify partitions the response's tool requests by the
frontend-tool registry — frontend-handled are the successfully parsed
requests whose name the registry claims, everything else including parse
errors is agent-handled — and returns a copy of the message whose content
is the original content with exactly the frontend-handled tool requests
removed: an item survives iff it is not a frontend-handled request, the
remaining items keep their relative order (the content is a sublist of the
original), and id, role and creation time are preserved. -/
theorem categorize_tool_requests_partition (is_frontend_tool : String → Bool)
    (response : Message) :
    (categorize_tool_requests is_frontend_tool response).1
        = (tool_requests_of response).filter (is_frontend_request is_frontend_tool) ∧
    (categorize_tool_requests is_frontend_tool response).2.1
        = (tool_requests_of response).filter
            (fun r => !is_frontend_request is_frontend_tool r) ∧
    (categorize_tool_requests is_frontend_tool response).2.2.content
        = response.content.filter (should_include is_frontend_tool) ∧
    (∀ c : MessageContent,
      should_include is_frontend_tool c
        = !(match c with
            | MessageContent.toolRequest r => is_frontend_request is_frontend_tool r
            | _ => false)) ∧
    (categorize_tool_requests is_frontend_tool response).2.2.content.Sublist
        response.content ∧
    (categorize_tool_requests is_frontend_tool response).2.2.id = response.id ∧
    (categorize_tool_requests is_frontend_tool response).2.2.role = response.role ∧
    (categorize_tool_requests is_frontend_tool response).2.2.created
        = response.created := by
  refine ⟨?_, ?_, rfl, ?_, ?_, rfl, rfl, rfl⟩
  · simp [categorize_tool_requests, categorize_loop_eq_filter]
  · simp [categorize_tool_requests, categorize_loop_eq_filter]
  · intro c
    cases c with
    | toolRequest r =>
      cases htc : r.tool_call <;> simp [should_include, is_frontend_request, htc]
    | text t => rfl
    | toolResponse id payload => rfl
  · exact List.filter_sublist _

/-! ### C4: toolshim re-parsing of the provider reply -/

/-- Projecting the tool requests back out of a list of freshly built
tool-request content items recovers the requests. -/
theorem filterMap_toolRequest_items (l : List (Nat × ToolCall)) :
    (l.map (fun p => MessageContent.toolRequest
        { id := toString p.1, tool_call := Except.ok p.2 })).filterMap
      (fun c =>
        match c with
        | MessageContent.toolRequest req => some req
        | _ => none)
      = l.map (fun p => { id := toString p.1, tool_call := Except.ok p.2 }) := by
  induction l with
  | nil => rfl
  | cons p rest ih => simp [List.filterMap_cons, ih]

/-- C4: when toolshim is enabled and the provider's raw reply carries no
native tool-call content, a successful generate returns the reply as
post-processed by the Toolshim Adapter, and every tool-call content item
of the returned message is one produced by the interpreter's text
interpretation of the reply — none comes from the raw provider reply. -/
theorem generate_toolshim_reparses_reply (provider : Provider)
    (interpret : List ToolDef → String → List ToolCall)
    (estimator : String → List Message → Message → List ToolDef →
      Except ProviderError Usage)
    (system_prompt : String) (messages : List Message)
    (tools toolshim_tools : List ToolDef) (response : Message)
    (pu : ProviderUsage) (usage : Usage)
    (htool : provider.config.toolshim = true)
    (hcomplete : provider.complete system_prompt
      (convert_tool_messages_to_text messages) tools
      = Except.ok (response, pu))
    (hens : ensure_tokens estimator pu.usage system_prompt
      (convert_tool_messages_to_text messages) response tools = Except.ok usage)
    (hraw : tool_requests_of response = []) :
    generate_response_from_provider provider interpret estimator system_prompt
        messages tools toolshim_tools
      = Except.ok (toolshim_postprocess interpret response toolshim_tools,
          { pu with usage := usage }, pu.model) ∧
    tool_requests_of (toolshim_postprocess interpret response toolshim_tools)
      = (List.enum (interpret toolshim_tools (message_text response))).map
          (fun p => { id := toString p.1, tool_call := Except.ok p.2 }) := by
  constructor
  · simp [generate_response_from_provider, htool, hcomplete, hens]
  · unfold toolshim_postprocess augment_message_with_tool_calls tool_requests_of
    simp only [List.filterMap_append]
    rw [show response.content.filterMap (fun c =>
        match c with
        | MessageContent.toolRequest req => some req
        | _ => none) = [] from hraw]
    rw [filterMap_toolRequest_items]
    rfl

/-- A fixture provider whose model has toolshim enabled and whose reply is
pure text with no native tool calls. -/
def shim_provider : Provider :=
  { config := { model_name := "llama", toolshim := true }
    complete := fun _ _ _ =>
      Except.ok
        ({ id := some "r1", role := Role.assistant, created := 0
           content := [MessageContent.text "run the shell tool"] },
         { model := "llama"
           usage := { input_tokens := some 1, output_tokens := some 2
                      total_tokens := some 3 } }) }

/-- A fixture interpreter extracting one shell tool call from the reply
text. -/
def shim_interpret : List ToolDef → String → List ToolCall :=
  fun _ _ => [{ name := "shell", arguments := Json.null }]

/-- A fixture estimator (never consulted: the fixture provider reports all
counts). -/
def shim_estimator : String → List Message → Message → List ToolDef →
    Except ProviderError Usage :=
  fun _ _ _ _ =>
    Except.ok { input_tokens := some 0, output_tokens := some 0,
                total_tokens := some 0 }

/-- C4, witness: on the fixture provider the generated message's tool-call
content is exactly the interpreter's output, a single successfully parsed
shell call. -/
theorem generate_toolshim_reparses_reply_witness :
    tool_requests_of (toolshim_postprocess shim_interpret
        { id := some "r1", role := Role.assistant, created := 0
          content := [MessageContent.text "run the shell tool"] } [])
      = [{ id := "0"
           tool_call := Except.ok { name := "shell", arguments := Json.null } }] := by
  rw [(generate_toolshim_reparses_reply shim_provider shim_interpret shim_estimator
    "sys" [] [] []
    { id := some "r1", role := Role.assistant, created := 0
      content := [MessageContent.text "run the shell tool"] }
    { model := "llama"
      usage := { input_tokens := some 1, output_tokens := some 2
                 total_tokens := some 3 } }
    { input_tokens := some 1, output_tokens := some 2, total_tokens := some 3 }
    rfl rfl rfl rfl).2]
  rfl

end Goose
